import Mathlib

/-!
Shallow embedding of the libkrb5-rs wrapper library (src/libkrb5/src/) in Lean 4.

Modelling conventions:
* Rust `String` / `&str` values are byte lists (`List Nat`, each entry < 256,
  valid UTF-8 where the Rust type guarantees it).
* A native `*const c_char` result is `Option (List Nat)`: `none` is the null
  pointer, `some bytes` the NUL-terminated buffer's content up to (excluding)
  the terminator.
* The opaque native `krb5_context` handle is modelled by the responses the
  native library gives through it (an oracle structure `NativeContext`).
* Where a function's claims concern native side effects, the embedding returns
  the result together with a count or trace of the native calls performed.
-/

/-- Error domain of the wrapper, from src/libkrb5/src/error.rs (`Krb5Error`).
`StringConversion` carries `Option<IntoStringError>` in the source; the model
keeps only whether an underlying conversion error is carried (`true`) or not
(`false`). -/
inductive Krb5Error where
  | LibraryError (message : List Nat)
  | NullPointerDereference
  | StringConversion (underlying : Bool)
  | MaxVarArgsExceeded
deriving DecidableEq, Repr

/-- Byte list of an ASCII string, used to model `Display` output text. -/
def ascii (s : String) : List Nat := s.data.map Char.toNat

/-- `Display for Krb5Error` (error.rs): the stringified error message.
For `StringConversion` with an underlying error the source appends that
error's own text, which is opaque here. -/
def Krb5Error.toString : Krb5Error → List Nat
  | .LibraryError message => ascii "Library error: " ++ message
  | .NullPointerDereference => ascii "NULL Pointer dereference error"
  | .StringConversion _ => ascii "String conversion / UTF8 error"
  | .MaxVarArgsExceeded =>
      ascii "Maximum number of supported arguments for a variadic function exceeded."

/-- Whether a byte is a UTF-8 continuation byte (0x80–0xBF). -/
def isCont (b : Nat) : Bool := 0x80 ≤ b && b ≤ 0xBF

/-- UTF-8 validity of a byte list, following the standard well-formedness
table (RFC 3629): used to model whether a native byte string decodes to a
Rust `String`. -/
def validUtf8 : List Nat → Bool
  | [] => true
  | b :: rest =>
    if b ≤ 0x7F then validUtf8 rest
    else if 0xC2 ≤ b && b ≤ 0xDF then
      match rest with
      | b1 :: rest1 => isCont b1 && validUtf8 rest1
      | [] => false
    else if b == 0xE0 then
      match rest with
      | b1 :: b2 :: rest2 => (0xA0 ≤ b1 && b1 ≤ 0xBF) && isCont b2 && validUtf8 rest2
      | _ => false
    else if (0xE1 ≤ b && b ≤ 0xEC) || b == 0xEE || b == 0xEF then
      match rest with
      | b1 :: b2 :: rest2 => isCont b1 && isCont b2 && validUtf8 rest2
      | _ => false
    else if b == 0xED then
      match rest with
      | b1 :: b2 :: rest2 => (0x80 ≤ b1 && b1 ≤ 0x9F) && isCont b2 && validUtf8 rest2
      | _ => false
    else if b == 0xF0 then
      match rest with
      | b1 :: b2 :: b3 :: rest3 =>
          (0x90 ≤ b1 && b1 ≤ 0xBF) && isCont b2 && isCont b3 && validUtf8 rest3
      | _ => false
    else if 0xF1 ≤ b && b ≤ 0xF3 then
      match rest with
      | b1 :: b2 :: b3 :: rest3 => isCont b1 && isCont b2 && isCont b3 && validUtf8 rest3
      | _ => false
    else if b == 0xF4 then
      match rest with
      | b1 :: b2 :: b3 :: rest3 =>
          (0x80 ≤ b1 && b1 ≤ 0x8F) && isCont b2 && isCont b3 && validUtf8 rest3
      | _ => false
    else false

/-- Modelled from the spec: `c_string_to_string` lives in the crate's
`strconv` module, which is not present under src/. Per the spec, a null
native string pointer is a `NullPointerDereference`; otherwise the
NUL-terminated byte buffer is copied and decoded as UTF-8, an invalid byte
sequence being a `StringConversion` carrying the underlying decode error. -/
def c_string_to_string (c_string : Option (List Nat)) : Except Krb5Error (List Nat) :=
  match c_string with
  | none => .error .NullPointerDereference
  | some bytes => if validUtf8 bytes then .ok bytes else .error (.StringConversion true)

/-- Modelled from the spec: `string_to_c_string` lives in the crate's
`strconv` module, which is not present under src/. Per the spec, a Rust
string converts losslessly to a null-terminated byte form; the conversion
fails (with a `StringConversion` that carries no underlying decode error)
exactly when the string contains an interior NUL byte. -/
def string_to_c_string (string : List Nat) : Except Krb5Error (List Nat) :=
  if string.contains 0 then .error (.StringConversion false) else .ok string

/-- Modelled from the spec: the observable behaviour of the opaque native
library handle (`krb5_context`), given as the responses the native library
returns through it: the message buffer for each error code
(`krb5_get_error_message`), the default cache name (`krb5_cc_default_name`),
and the status/realm pair of `krb5_get_default_realm`. -/
structure NativeContext where
  get_error_message : Int → Option (List Nat)
  cc_default_name : Option (List Nat)
  default_realm : Int × Option (List Nat)

/-- Wrapper struct for the library context, from context.rs (`Krb5Context`):
holds the opaque native handle. -/
structure Krb5Context where
  context : NativeContext

/-- `Krb5Context::error_code_to_message` (context.rs lines 235-245): fetches
the message for `code` via `krb5_get_error_message`, decodes it, and on
success frees the native buffer via `krb5_free_error_message` before
returning; on a decode failure it returns the stringified conversion error.
The second component counts the calls made to `krb5_free_error_message`
(the source calls it only on the `Ok` branch of the match). -/
def Krb5Context.error_code_to_message (self : Krb5Context) (code : Int) : List Nat × Nat :=
  let message : Option (List Nat) := self.context.get_error_message code
  match c_string_to_string message with
  | .ok string => (string, 1)
  | .error error => (error.toString, 0)

/-- `krb5_error_code_escape_hatch` (error.rs lines 63-71): zero is success,
any nonzero code becomes a `LibraryError` carrying the context's message for
that code. -/
def krb5_error_code_escape_hatch (context : Krb5Context) (code : Int) : Except Krb5Error Unit :=
  if code = 0 then .ok ()
  else .error (.LibraryError (context.error_code_to_message code).1)

/-- Principal data (principal.rs `Krb5PrincipalData`): the dereferenced
native `krb5_principal_data`. `realm_data` models the `realm.data` C-string
pointer, `component_data` the component strings (not read by any wrapper
function in scope). -/
structure Krb5PrincipalData where
  realm_data : Option (List Nat)
  component_data : List (List Nat)
deriving DecidableEq, Repr

/-- Principal wrapper (principal.rs `Krb5Principal`): owns a native
principal handle, modelled by its pointee. The borrowed context reference
carries no observable state of its own and is not stored. -/
structure Krb5Principal where
  principal : Krb5PrincipalData
deriving DecidableEq, Repr

/-- `Krb5Principal::data` (principal.rs): dereferences the native handle
into a borrowed `Krb5PrincipalData` view. -/
def Krb5Principal.data (self : Krb5Principal) : Krb5PrincipalData :=
  self.principal

/-- `Krb5PrincipalData::realm` (principal.rs lines 59-68): decodes the
`realm.data` native byte string. -/
def Krb5PrincipalData.realm (self : Krb5PrincipalData) : Except Krb5Error (List Nat) :=
  c_string_to_string self.realm_data

/-- Modelled from the spec: the native `krb5_build_principal` call is part
of the opaque native library, treated per the spec as composing a principal
from the realm C-string (of byte length `realml`) and the component
C-strings, reporting a zero status. -/
def krb5_build_principal (realml : Nat) (crealm : List Nat)
    (varargs : List (List Nat)) : Int × Krb5PrincipalData :=
  let _ := realml
  (0, { realm_data := some crealm, component_data := varargs })

/-- The `for arg in args` loop of `Krb5Context::build_principal`
(context.rs lines 89-92): converts every component string in order,
returning the first conversion failure. -/
def convert_varargs : List (List Nat) → Except Krb5Error (List (List Nat))
  | [] => .ok []
  | arg :: rest =>
    match string_to_c_string arg with
    | .error e => .error e
    | .ok carg =>
      match convert_varargs rest with
      | .error e => .error e
      | .ok crest => .ok (carg :: crest)

/-- `Krb5Context::build_principal` (context.rs lines 85-145): converts the
realm, then every component, then dispatches on the component count — the
fixed-arity match supports 0 to 4 components and otherwise returns
`MaxVarArgsExceeded` without calling the native layer. The second component
counts the calls made to the native `krb5_build_principal` (each arm 0–4 of
the source's match passes exactly the `args.len()` converted components, so
all arms are one call with `varargs`). -/
def Krb5Context.build_principal (self : Krb5Context) (realm : List Nat)
    (args : List (List Nat)) : Except Krb5Error Krb5Principal × Nat :=
  match string_to_c_string realm with
  | .error e => (.error e, 0)
  | .ok crealm =>
    match convert_varargs args with
    | .error e => (.error e, 0)
    | .ok varargs =>
      match args.length with
      | 0 | 1 | 2 | 3 | 4 =>
        match krb5_error_code_escape_hatch self (krb5_build_principal realm.length crealm varargs).1 with
        | .error e => (.error e, 1)
        | .ok () => (.ok { principal := (krb5_build_principal realm.length crealm varargs).2 }, 1)
      | _ => (.error .MaxVarArgsExceeded, 0)

/-- Modelled from the spec: the native header constant
`KRB5_CONFIG_NODEFREALM` (the no-default-realm condition) comes from the
generated sys bindings, which are not under src/; it is a fixed nonzero
status code of the native ABI. -/
def KRB5_CONFIG_NODEFREALM : Int := -1765328160

/-- `Krb5Context::get_default_realm` (context.rs lines 152-169): the
specific no-default-realm status returns an explicit absence; any other
nonzero status goes through the escape hatch; a zero status decodes the
returned realm string (then frees the native buffer) and returns it. -/
def Krb5Context.get_default_realm (self : Krb5Context) :
    Except Krb5Error (Option (List Nat)) :=
  let code := self.context.default_realm.1
  let realm := self.context.default_realm.2
  if code = KRB5_CONFIG_NODEFREALM then .ok none
  else
    match krb5_error_code_escape_hatch self code with
    | .error e => .error e
    | .ok () =>
      match c_string_to_string realm with
      | .error e => .error e
      | .ok string => .ok (some string)

/-- The observable behaviour of an opaque native `krb5_ccache` handle:
the status code `krb5_cc_destroy` reports for it. -/
structure NativeCCache where
  destroy_code : Int
deriving Repr

/-- Credential cache wrapper (ccache.rs `Krb5CCache`): borrows the context
and owns a native cache handle. -/
structure Krb5CCache where
  context : Krb5Context
  ccache : NativeCCache

/-- Native calls a `Krb5CCache` can make on its owned handle; both release
the handle (`krb5_cc_destroy` destroys and closes it, `krb5_cc_close`
closes it). -/
inductive CCacheNativeCall where
  | cc_destroy
  | cc_close
deriving DecidableEq, Repr

/-- `Drop for Krb5CCache` (ccache.rs lines 30-36): releases the owned
handle with one `krb5_cc_close` call. -/
def Krb5CCache.drop : List CCacheNativeCall := [.cc_close]

/-- `Krb5CCache::default_name` (ccache.rs lines 72-76): queries
`krb5_cc_default_name` — which returns a string pointer and no status
code — and decodes it. -/
def Krb5CCache.default_name (context : Krb5Context) : Except Krb5Error (List Nat) :=
  c_string_to_string context.context.cc_default_name

/-- `Krb5CCache::destroy` (ccache.rs lines 83-89): calls `krb5_cc_destroy`
on the owned handle and checks the status. The function takes `self` by
value without `mem::forget`, so when the body finishes (on either branch)
Rust drops the consumed value and `Drop for Krb5CCache` runs, issuing its
`krb5_cc_close`; the trace component records the native calls made on the
handle in order, the implicit drop appended last. -/
def Krb5CCache.destroy (self : Krb5CCache) :
    Except Krb5Error Unit × List CCacheNativeCall :=
  let code := self.ccache.destroy_code
  match krb5_error_code_escape_hatch self.context code with
  | .error e => (.error e, [.cc_destroy] ++ Krb5CCache.drop)
  | .ok () => (.ok (), [.cc_destroy] ++ Krb5CCache.drop)

/-- Cache collection cursor (cccol.rs `Krb5CCCol`): borrows the context and
owns a native collection cursor handle. The opaque cursor is modelled by
the pending responses of successive `krb5_cccol_cursor_next` calls (status
code and cache pointer); once these run out the native cursor keeps
answering status zero with a null pointer. -/
structure Krb5CCCol where
  context : Krb5Context
  cursor : List (Int × Option NativeCCache)

/-- `Iterator::next for Krb5CCCol` (cccol.rs lines 64-88): one advance of
the cursor. The source writes
`krb5_error_code_escape_hatch(self.context, code).ok()?;`, so a nonzero
status is mapped through `Result::ok` to `None` and ends the sequence with
no element; a null cache pointer also ends the sequence; otherwise the
yielded element wraps the cache handle. Returns the yielded element (if
any) and the advanced cursor. -/
def Krb5CCCol.next (self : Krb5CCCol) :
    Option (Except Krb5Error Krb5CCache) × Krb5CCCol :=
  let resp := match self.cursor with
    | [] => ((0 : Int), (none : Option NativeCCache))
    | r :: _ => r
  let rest := match self.cursor with
    | [] => ([] : List (Int × Option NativeCCache))
    | _ :: rs => rs
  let advanced : Krb5CCCol := { self with cursor := rest }
  match (krb5_error_code_escape_hatch self.context resp.1).toOption with
  | none => (none, advanced)
  | some () =>
    match resp.2 with
    | none => (none, advanced)
    | some ccache_ptr =>
      (some (.ok { context := self.context, ccache := ccache_ptr }), advanced)

/-- Driving the iterator to completion, as a Rust `for` loop over the
cursor does: collects yielded elements until an advance yields none. -/
def Krb5CCCol.collect (context : Krb5Context) :
    List (Int × Option NativeCCache) → List (Except Krb5Error Krb5CCache)
  | [] => []
  | r :: rs =>
    match Krb5CCCol.next { context := context, cursor := r :: rs } with
    | (none, _) => []
    | (some item, _) => item :: Krb5CCCol.collect context rs

/-- A concrete context oracle giving well-formed ASCII responses: every
error message reads "err", the default cache name is "FILE", the default
realm query succeeds with realm "E". -/
def ctx0 : Krb5Context :=
  { context :=
    { get_error_message := fun _ => some [101, 114, 114],
      cc_default_name := some [70, 73, 76, 69],
      default_realm := ((0 : Int), some [69]) } }

/-- A context whose native error-message buffer holds the invalid UTF-8
byte 0xFF, so decoding the message fails. -/
def ctxBadMessage : Krb5Context :=
  { context :=
    { get_error_message := fun _ => some [255],
      cc_default_name := some [70],
      default_realm := ((0 : Int), none) } }

/-- A context whose native string results are null pointers and whose
default-realm query reports the no-default-realm condition. -/
def ctxNullName : Krb5Context :=
  { context :=
    { get_error_message := fun _ => none,
      cc_default_name := none,
      default_realm := (KRB5_CONFIG_NODEFREALM, none) } }

theorem string_to_c_string_ok_of_isOk (s : List Nat)
    (h : (string_to_c_string s).isOk = true) : string_to_c_string s = .ok s := by
  unfold string_to_c_string at *
  by_cases hc : s.contains 0 = true
  · rw [if_pos hc] at h; simp [Except.isOk, Except.toBool] at h
  · rw [if_neg hc]

theorem string_to_c_string_error_eq (s : List Nat) (e : Krb5Error)
    (h : string_to_c_string s = .error e) : e = .StringConversion false := by
  unfold string_to_c_string at h
  by_cases hc : s.contains 0 = true
  · rw [if_pos hc] at h; exact (Except.error.inj h).symm
  · rw [if_neg hc] at h; cases h

theorem c_string_to_string_error_cases (c_string : Option (List Nat)) (e : Krb5Error)
    (h : c_string_to_string c_string = .error e) :
    e = .NullPointerDereference ∨ e = .StringConversion true := by
  cases c_string with
  | none =>
    simp only [c_string_to_string] at h
    exact Or.inl (Except.error.inj h).symm
  | some bytes =>
    simp only [c_string_to_string] at h
    by_cases hv : validUtf8 bytes = true
    · rw [if_pos hv] at h; cases h
    · rw [if_neg hv] at h; exact Or.inr (Except.error.inj h).symm

theorem convert_varargs_ok_of_forall (args : List (List Nat))
    (h : ∀ a ∈ args, (string_to_c_string a).isOk = true) :
    convert_varargs args = .ok args := by
  induction args with
  | nil => rfl
  | cons a rest ih =>
    have ha := string_to_c_string_ok_of_isOk a (h a (by simp))
    have hrest := ih (fun x hx => h x (by simp [hx]))
    simp [convert_varargs, ha, hrest]

theorem convert_varargs_error_of_exists (args : List (List Nat))
    (h : ∃ a ∈ args, (string_to_c_string a).isOk = false) :
    convert_varargs args = .error (.StringConversion false) := by
  induction args with
  | nil => simp at h
  | cons a rest ih =>
    cases ha : string_to_c_string a with
    | error e =>
      have := string_to_c_string_error_eq a e ha
      simp [convert_varargs, ha, this]
    | ok ca =>
      have hrest : ∃ x ∈ rest, (string_to_c_string x).isOk = false := by
        rcases h with ⟨x, hx, hbad⟩
        rcases List.mem_cons.mp hx with rfl | hx2
        · rw [ha] at hbad; simp [Except.isOk, Except.toBool] at hbad
        · exact ⟨x, hx2, hbad⟩
      simp [convert_varargs, ha, ih hrest]

/-- Claim C6: a zero status code passed through the error-translation
function returns success and propagates no error, and every nonzero code
returns a `LibraryError` carrying the message obtained from the context's
message-formatting helper for that code. -/
theorem c6_escape_hatch_classifies (context : Krb5Context) (code : Int) :
    (code = 0 → krb5_error_code_escape_hatch context code = .ok ()) ∧
    (code ≠ 0 → krb5_error_code_escape_hatch context code =
      .error (.LibraryError (context.error_code_to_message code).1)) := by
  constructor
  · intro h; simp [krb5_error_code_escape_hatch, h]
  · intro h; simp [krb5_error_code_escape_hatch, h]

/-- Witness for C6: at a concrete context, code 0 succeeds and the nonzero
code 5 yields the `LibraryError` with the context's message for 5. -/
theorem c6_escape_hatch_classifies_witness :
    krb5_error_code_escape_hatch ctx0 0 = .ok () ∧
    krb5_error_code_escape_hatch ctx0 5 =
      .error (.LibraryError (ctx0.error_code_to_message 5).1) :=
  ⟨(c6_escape_hatch_classifies ctx0 0).1 rfl,
   (c6_escape_hatch_classifies ctx0 5).2 (by decide)⟩

/-- Counterexample to claim C4: at a context whose native message buffer for
code 5 holds the invalid UTF-8 byte 0xFF, decoding the message fails and
`error_code_to_message` returns with zero calls to
`krb5_free_error_message` — the buffer is not freed on this path, so it is
not freed exactly once on every path. -/
theorem c4_counterexample_free_skipped :
    c_string_to_string (ctxBadMessage.context.get_error_message 5) =
      .error (.StringConversion true) ∧
    (ctxBadMessage.error_code_to_message 5).2 = 0 := by
  exact ⟨rfl, rfl⟩

/-- Claim C4 (amended): the native message buffer is freed exactly once
before `error_code_to_message` returns when decoding the fetched message
succeeds; when decoding fails, the buffer is not freed and the stringified
conversion error is returned instead. -/
theorem c4_free_once_iff_decode_ok (context : Krb5Context) (code : Int) :
    ((c_string_to_string (context.context.get_error_message code)).isOk = true →
      (context.error_code_to_message code).2 = 1) ∧
    ((c_string_to_string (context.context.get_error_message code)).isOk = false →
      (context.error_code_to_message code).2 = 0 ∧
      ∃ e, c_string_to_string (context.context.get_error_message code) = .error e ∧
        (context.error_code_to_message code).1 = e.toString) := by
  unfold Krb5Context.error_code_to_message
  cases h : c_string_to_string (context.context.get_error_message code) with
  | ok string => simp [h, Except.isOk, Except.toBool]
  | error e => simp [h, Except.isOk, Except.toBool]

/-- Witness for C4 (amended): at a concrete context whose message decodes,
the buffer is freed exactly once. -/
theorem c4_free_once_iff_decode_ok_witness :
    (c_string_to_string (ctx0.context.get_error_message 7)).isOk = true ∧
    (ctx0.error_code_to_message 7).2 = 1 :=
  ⟨rfl, (c4_free_once_iff_decode_ok ctx0 7).1 rfl⟩

/-- Claim C5: `get_default_realm` returns an explicit absence when the
native layer reports the specific no-default-realm condition, a
`LibraryError` on any other nonzero status, and the configured default
realm (the decoded native realm string) on a zero status. -/
theorem c5_get_default_realm_classifies (context : Krb5Context) :
    (context.context.default_realm.1 = KRB5_CONFIG_NODEFREALM →
      context.get_default_realm = .ok none) ∧
    (context.context.default_realm.1 ≠ KRB5_CONFIG_NODEFREALM →
      context.context.default_realm.1 ≠ 0 →
      context.get_default_realm = .error
        (.LibraryError ((context.error_code_to_message context.context.default_realm.1).1))) ∧
    (context.context.default_realm.1 = 0 →
      ∀ s, c_string_to_string context.context.default_realm.2 = .ok s →
        context.get_default_realm = .ok (some s)) := by
  refine ⟨?_, ?_, ?_⟩
  · intro h
    simp [Krb5Context.get_default_realm, h]
  · intro h hnz
    simp [Krb5Context.get_default_realm, h, krb5_error_code_escape_hatch, hnz]
  · intro h s hs
    have hne : (0 : Int) ≠ KRB5_CONFIG_NODEFREALM := by decide
    simp [Krb5Context.get_default_realm, h, hne, krb5_error_code_escape_hatch, hs]

/-- Witness for C5: at a concrete context whose native default-realm query
reports status zero with realm "E", the call returns that realm; at one
reporting the no-default-realm condition, it returns the explicit
absence. -/
theorem c5_get_default_realm_classifies_witness :
    Krb5Context.get_default_realm ctx0 = .ok (some [69]) ∧
    Krb5Context.get_default_realm ctxNullName = .ok none :=
  ⟨(c5_get_default_realm_classifies ctx0).2.2 rfl [69] rfl,
   (c5_get_default_realm_classifies ctxNullName).1 rfl⟩

/-- Claim C10: `default_name` never returns a `LibraryError`; its only
possible failures are failures of decoding the native string returned by
`krb5_cc_default_name` (a null pointer or invalid UTF-8 bytes). -/
theorem c10_default_name_no_library_error (context : Krb5Context) (e : Krb5Error)
    (h : Krb5CCache.default_name context = .error e) :
    (∀ message, e ≠ .LibraryError message) ∧
    (e = .NullPointerDereference ∨ e = .StringConversion true) := by
  have hcases := c_string_to_string_error_cases context.context.cc_default_name e h
  refine ⟨?_, hcases⟩
  intro message hcontra
  rcases hcases with h1 | h1 <;> rw [hcontra] at h1 <;> cases h1

/-- Witness for C10: at a concrete context whose native default-name
pointer is null, `default_name` fails with `NullPointerDereference`, which
is not a `LibraryError`. -/
theorem c10_default_name_no_library_error_witness :
    Krb5CCache.default_name ctxNullName = .error .NullPointerDereference ∧
    ((∀ message, Krb5Error.NullPointerDereference ≠ .LibraryError message) ∧
      (Krb5Error.NullPointerDereference = .NullPointerDereference ∨
        Krb5Error.NullPointerDereference = .StringConversion true)) :=
  ⟨rfl, c10_default_name_no_library_error ctxNullName .NullPointerDereference rfl⟩

/-- Counterexample to claim C3: with five components of which the last
contains an interior NUL byte, `build_principal` fails with
`StringConversion`, not `MaxVarArgsExceeded` (the conversions run before
the arity check). -/
theorem c3_counterexample_nul_component :
    5 ≤ ([[65], [65], [65], [65], [0]] : List (List Nat)).length ∧
    (ctx0.build_principal [69, 88] [[65], [65], [65], [65], [0]]).1 =
      .error (.StringConversion false) ∧
    (ctx0.build_principal [69, 88] [[65], [65], [65], [65], [0]]).1 ≠
      .error .MaxVarArgsExceeded := by
  have heq : (ctx0.build_principal [69, 88] [[65], [65], [65], [65], [0]]).1 =
      .error (.StringConversion false) := rfl
  refine ⟨by decide, heq, ?_⟩
  intro hcontra
  rw [heq] at hcontra
  cases hcontra

/-- Claim C3 (amended): for any component list with 5 or more elements,
`build_principal` performs no native `krb5_build_principal` call, and —
provided the realm and every component convert to C strings — it fails
with `MaxVarArgsExceeded`. -/
theorem c3_max_varargs_no_native_call (context : Krb5Context) (realm : List Nat)
    (args : List (List Nat)) (hlen : 5 ≤ args.length) :
    (context.build_principal realm args).2 = 0 ∧
    ((string_to_c_string realm).isOk = true →
      (∀ a ∈ args, (string_to_c_string a).isOk = true) →
      (context.build_principal realm args).1 = .error .MaxVarArgsExceeded) := by
  rcases args with _ | ⟨a1, _ | ⟨a2, _ | ⟨a3, _ | ⟨a4, _ | ⟨a5, rest⟩⟩⟩⟩⟩
  · exact absurd hlen (by simp)
  · exact absurd hlen (by simp)
  · exact absurd hlen (by simp)
  · exact absurd hlen (by simp)
  · exact absurd hlen (by simp)
  constructor
  · cases h1 : string_to_c_string realm with
    | error e => simp [Krb5Context.build_principal, h1]
    | ok crealm =>
      cases h2 : convert_varargs (a1 :: a2 :: a3 :: a4 :: a5 :: rest) with
      | error e => simp [Krb5Context.build_principal, h1, h2]
      | ok varargs => simp [Krb5Context.build_principal, h1, h2]
  · intro hrealm hargs
    have h1 := string_to_c_string_ok_of_isOk realm hrealm
    have h2 := convert_varargs_ok_of_forall _ hargs
    simp [Krb5Context.build_principal, h1, h2]

/-- Witness for C3 (amended): five NUL-free components make the call fail
with `MaxVarArgsExceeded` and perform no native call. -/
theorem c3_max_varargs_no_native_call_witness :
    (ctx0.build_principal [69] [[65], [65], [65], [65], [65]]).2 = 0 ∧
    (ctx0.build_principal [69] [[65], [65], [65], [65], [65]]).1 =
      .error .MaxVarArgsExceeded :=
  ⟨(c3_max_varargs_no_native_call ctx0 [69] [[65], [65], [65], [65], [65]]
      (by decide)).1,
   (c3_max_varargs_no_native_call ctx0 [69] [[65], [65], [65], [65], [65]]
      (by decide)).2 (by decide) (by decide)⟩

/-- Claim C9: the realm and every component are converted to C strings
before the component-count cap is checked — with 5 or more components of
which some component fails conversion (the realm converting), the call
fails with `StringConversion` rather than `MaxVarArgsExceeded`, and no
native call is made. -/
theorem c9_conversion_precedes_cap (context : Krb5Context) (realm : List Nat)
    (args : List (List Nat)) (_hlen : 5 ≤ args.length)
    (hrealm : (string_to_c_string realm).isOk = true)
    (hbad : ∃ a ∈ args, (string_to_c_string a).isOk = false) :
    (context.build_principal realm args).1 = .error (.StringConversion false) ∧
    (context.build_principal realm args).2 = 0 := by
  have h1 := string_to_c_string_ok_of_isOk realm hrealm
  have h2 := convert_varargs_error_of_exists args hbad
  constructor <;> simp [Krb5Context.build_principal, h1, h2]

/-- Witness for C9: five components whose first contains an interior NUL
byte yield `StringConversion` with no native call. -/
theorem c9_conversion_precedes_cap_witness :
    (ctx0.build_principal [69] [[0], [65], [65], [65], [65]]).1 =
      .error (.StringConversion false) ∧
    (ctx0.build_principal [69] [[0], [65], [65], [65], [65]]).2 = 0 :=
  c9_conversion_precedes_cap ctx0 [69] [[0], [65], [65], [65], [65]]
    (by decide) (by decide) (by decide)

/-- Claim C8: for every realm string and component list with at most 4
components, all free of interior NUL bytes (and the realm valid UTF-8, as
a Rust string is), `build_principal` succeeds and the realm read through
the resulting principal's data view decodes back to exactly the input
realm. -/
theorem c8_build_principal_realm_roundtrip (context : Krb5Context)
    (realm : List Nat) (args : List (List Nat))
    (hlen : args.length ≤ 4)
    (hrealm_nul : realm.contains 0 = false)
    (hrealm_utf8 : validUtf8 realm = true)
    (hargs : ∀ a ∈ args, (string_to_c_string a).isOk = true) :
    ∃ p : Krb5Principal,
      (context.build_principal realm args).1 = .ok p ∧
      p.data.realm = .ok realm := by
  have h1 : string_to_c_string realm = .ok realm := by
    unfold string_to_c_string
    simp [hrealm_nul]
    simpa using hrealm_nul
  have h2 := convert_varargs_ok_of_forall args hargs
  refine ⟨{ principal := { realm_data := some realm, component_data := args } }, ?_, ?_⟩
  · rcases args with _ | ⟨a1, _ | ⟨a2, _ | ⟨a3, _ | ⟨a4, _ | ⟨a5, rest⟩⟩⟩⟩⟩
    · simp [Krb5Context.build_principal, h1, h2, krb5_build_principal,
        krb5_error_code_escape_hatch]
    · simp [Krb5Context.build_principal, h1, h2, krb5_build_principal,
        krb5_error_code_escape_hatch]
    · simp [Krb5Context.build_principal, h1, h2, krb5_build_principal,
        krb5_error_code_escape_hatch]
    · simp [Krb5Context.build_principal, h1, h2, krb5_build_principal,
        krb5_error_code_escape_hatch]
    · simp [Krb5Context.build_principal, h1, h2, krb5_build_principal,
        krb5_error_code_escape_hatch]
    · simp at hlen
  · simp [Krb5Principal.data, Krb5PrincipalData.realm, c_string_to_string, hrealm_utf8]

/-- Witness for C8: realm "EX" with one component round-trips through the
built principal's data view. -/
theorem c8_build_principal_realm_roundtrip_witness :
    ∃ p : Krb5Principal,
      (ctx0.build_principal [69, 88] [[97]]).1 = .ok p ∧
      p.data.realm = .ok [69, 88] :=
  c8_build_principal_realm_roundtrip ctx0 [69, 88] [[97]]
    (by decide) (by decide) (by decide) (by decide)

/-- Claim C1 (code evidence): an advance of the cache collection cursor
that observes the nonzero native status 1 — even together with a non-null
cache pointer — ends the sequence with no element instead of yielding a
terminal error element: the source maps the escape hatch's `Err` through
`Result::ok` and `?`, discarding it, so this outcome is indistinguishable
from the null-handle end of the sequence. -/
theorem c1_nonzero_status_yields_no_element :
    ((1 : Int) ≠ 0) ∧
    (Krb5CCCol.next
      { context := ctx0,
        cursor := [((1 : Int), some { destroy_code := 0 })] }).1 = none ∧
    (Krb5CCCol.next { context := ctx0, cursor := [((0 : Int), none)] }).1 = none :=
  ⟨by decide, rfl, rfl⟩

/-- Claim C2 (code evidence): a cache consumed by `destroy()` has its
native handle released twice — `krb5_cc_destroy` inside the `destroy` body
and then `krb5_cc_close` when Rust drops the consumed value at the end of
the body — while a cache that is never destroyed is released exactly once
by its teardown. -/
theorem c2_destroy_then_drop_releases_twice :
    Krb5CCache.destroy { context := ctx0, ccache := { destroy_code := 0 } } =
      (.ok (), [.cc_destroy, .cc_close]) ∧
    Krb5CCache.drop = [CCacheNativeCall.cc_close] :=
  ⟨rfl, rfl⟩

/-- Claim C7: iterating a newly created cache collection cursor over a
collection with N visible caches (any N, including 0) produces exactly the
N caches as successful elements, in order, followed by termination with no
element; each advance consumes exactly one native cursor response, so the
sequence is finite and strictly forward-only. -/
theorem c7_cursor_yields_each_cache_once (context : Krb5Context)
    (handles : List NativeCCache) :
    Krb5CCCol.collect context (handles.map fun h => ((0 : Int), some h)) =
      handles.map (fun h => Except.ok { context := context, ccache := h }) ∧
    (Krb5CCCol.next { context := context, cursor := [] }).1 = none ∧
    (∀ r rs, (Krb5CCCol.next { context := context, cursor := r :: rs }).2.cursor = rs) := by
  refine ⟨?_, rfl, ?_⟩
  · induction handles with
    | nil => rfl
    | cons h rest ih =>
      simp only [List.map_cons, Krb5CCCol.collect, Krb5CCCol.next,
        krb5_error_code_escape_hatch, if_pos rfl, Except.toOption]
      simpa using ih
  · intro r rs
    rcases r with ⟨code, ptr⟩
    cases h : (krb5_error_code_escape_hatch context code).toOption with
    | none => simp [Krb5CCCol.next, h]
    | some u => cases u; cases ptr <;> simp [Krb5CCCol.next, h]
